import Mathlib

/-!
Shallow embedding of `main.py`, a random chord-progression generator.

Python conventions are modelled as follows:
* raised exceptions (`ValueError`, `IndexError`) become `Except String`;
* `random.choice(seq)` becomes an entropy-indexed lookup `seq[k % len(seq)]`,
  with the entropy value `k : Nat` passed in explicitly;
* list indexing `seq[i]` on indices that are always in range is `List.getD`,
  and where an `IndexError` could propagate it is the fallible `listIndex`.
-/

/-- `NOTES` from main.py: the 12 pitch classes, sharps only. -/
def NOTES : List String :=
  ["C","C#","D","D#"] ++ ["E","F","F#","G"] ++ ["G#","A","A#","B"]

/-- `MAJOR_OFFSETS` from main.py: major-scale semitone offsets from the root. -/
def MAJOR_OFFSETS : List Nat := [0, 2, 4, 5, 7, 9, 11]

/-- `MINOR_OFFSETS` from main.py: natural-minor semitone offsets from the root. -/
def MINOR_OFFSETS : List Nat := [0, 2, 3, 5, 7, 8, 10]

/-- `MAJOR_QUALITIES` from main.py: chord quality per major-scale degree 1..7. -/
def MAJOR_QUALITIES : List String := ["maj", "min", "min", "maj", "maj", "min", "dim"]

/-- `MINOR_QUALITIES` from main.py: chord quality per minor-scale degree 1..7. -/
def MINOR_QUALITIES : List String := ["min", "dim", "maj", "min", "min", "maj", "maj"]

/-- `MAJOR_PROGRESSIONS` from main.py: (roman_numerals, degree_numbers) templates. -/
def MAJOR_PROGRESSIONS : List (List String × List Int) :=
  [ (["I", "V", "vi", "IV"], [1, 5, 6, 4]),
    (["I", "vi", "IV", "V"], [1, 6, 4, 5]),
    (["vi", "IV", "I", "V"], [6, 4, 1, 5]),
    (["I", "IV", "V", "I"], [1, 4, 5, 1]) ]

/-- `MINOR_PROGRESSIONS` from main.py: (roman_numerals, degree_numbers) templates. -/
def MINOR_PROGRESSIONS : List (List String × List Int) :=
  [ (["i", "VI", "III", "VII"], [1, 6, 3, 7]),
    (["i", "iv", "v", "i"], [1, 4, 5, 1]),
    (["i", "VII", "VI", "VII"], [1, 7, 6, 7]),
    (["i", "VI", "VII", "i"], [1, 6, 7, 1]) ]

/-- Python list indexing `l[i]`: raises `IndexError` when `i` is out of range. -/
def listIndex (l : List String) (i : Nat) : Except String String :=
  if h : i < l.length then .ok (l.get ⟨i, h⟩)
  else .error "IndexError: list index out of range"

/-- `pick_key_and_mode` from main.py.  The two `random.choice` calls are modelled
by the entropy arguments `k1, k2`: a uniform choice from a sequence is the
element at the entropy value modulo the sequence length. -/
def pick_key_and_mode (k1 k2 : Nat) : String × String :=
  (NOTES.getD (k1 % NOTES.length) "", (["major", "minor"] : List String).getD (k2 % 2) "")

/-- `build_scale` from main.py: `NOTES.index(root)` raises `ValueError` when the
root is unknown; otherwise each semitone offset is added to the root index,
wrapping modulo `len(NOTES)`. -/
def build_scale (root mode : String) : Except String (List String) :=
  match NOTES.indexOf? root with
  | none => .error ("ValueError: " ++ root ++ " is not in list")
  | some root_index =>
    let offsets := if mode = "major" then MAJOR_OFFSETS else MINOR_OFFSETS
    .ok (offsets.map (fun semitone_offset =>
      NOTES.getD ((root_index + semitone_offset) % NOTES.length) ""))

/-- `chord_name` from main.py: quality `maj` gives the bare note, `min` appends
`m`, `dim` appends `dim`, anything else falls back to the bare note. -/
def chord_name (root_note quality : String) : String :=
  if quality = "maj" then root_note
  else if quality = "min" then root_note ++ "m"
  else if quality = "dim" then root_note ++ "dim"
  else root_note

/-- `degree_to_chord` from main.py: raises `ValueError` for a degree outside
1..7, otherwise looks up the scale note and the mode's quality at index
`degree - 1` and renders the chord name.  Degrees are Python ints (`Int`). -/
def degree_to_chord (scale : List String) (degree : Int) (mode : String) : Except String String :=
  if degree < 1 ∨ 7 < degree then
    .error "Degree must be between 1 and 7"
  else do
    let qualities := if mode = "major" then MAJOR_QUALITIES else MINOR_QUALITIES
    let scale_index := (degree - 1).toNat
    let root_note ← listIndex scale scale_index
    let quality ← listIndex qualities scale_index
    pure (chord_name root_note quality)

/-- `pick_progression` from main.py, with the `random.choice` call modelled by
the entropy argument `k` as in `pick_key_and_mode`. -/
def pick_progression (mode : String) (k : Nat) : List String × List Int :=
  if mode = "major" then MAJOR_PROGRESSIONS.getD (k % MAJOR_PROGRESSIONS.length) ([], [])
  else MINOR_PROGRESSIONS.getD (k % MINOR_PROGRESSIONS.length) ([], [])

/-- `generate_progression` from main.py: the full pipeline.  The three entropy
arguments stand for the three `random.choice` draws (root, mode, template).
The five printed lines are returned as a list of strings; an uncaught Python
exception is an `Except.error`. -/
def generate_progression (k1 k2 k3 : Nat) : Except String (List String) := do
  let rm := pick_key_and_mode k1 k2
  let root := rm.1
  let mode := rm.2
  let scale ← build_scale root mode
  let rd := pick_progression mode k3
  let roman := rd.1
  let degrees := rd.2
  let chords ← degrees.mapM (fun d => degree_to_chord scale d mode)
  pure [ "Random Chord Progression Generator",
         "Key: " ++ root ++ " " ++ mode,
         "Progression: " ++ String.intercalate " " roman,
         "Chords: " ++ String.intercalate " " chords,
         "Tip: Try 4 beats per chord." ]

/-! ### Helper lemmas -/

/-- For a degree in 1..7 and a 7-note scale, `degree_to_chord` succeeds and
returns the chord name of the scale note and mode quality at `degree - 1`. -/
lemma degree_to_chord_ok (scale : List String) (d : Int) (mode : String)
    (h7 : scale.length = 7) (h1 : 1 ≤ d) (h2 : d ≤ 7) :
    degree_to_chord scale d mode =
      Except.ok (chord_name (scale.getD (d - 1).toNat "")
        ((if mode = "major" then MAJOR_QUALITIES else MINOR_QUALITIES).getD (d - 1).toNat "")) := by
  have hidx : (d - 1).toNat < 7 := by omega
  have hs : (d - 1).toNat < scale.length := by omega
  have hq : (d - 1).toNat <
      (if mode = "major" then MAJOR_QUALITIES else MINOR_QUALITIES).length := by
    by_cases hm : mode = "major" <;> simp [hm, MAJOR_QUALITIES, MINOR_QUALITIES] <;> omega
  unfold degree_to_chord
  rw [if_neg (by omega)]
  show (listIndex scale (d - 1).toNat >>= fun root_note =>
    listIndex (if mode = "major" then MAJOR_QUALITIES else MINOR_QUALITIES) (d - 1).toNat >>=
      fun quality => pure (chord_name root_note quality)) = _
  unfold listIndex
  rw [dif_pos hs, dif_pos hq]
  show Except.ok (chord_name _ _) = _
  rw [List.getD_eq_getElem scale "" hs,
    List.getD_eq_getElem (if mode = "major" then MAJOR_QUALITIES else MINOR_QUALITIES) "" hq]
  rfl

/-- For a root that is one of the 12 notes, `build_scale` succeeds with a
7-element scale. -/
lemma build_scale_total (root : String) (hr : root ∈ NOTES) (mode : String) :
    ∃ s, build_scale root mode = Except.ok s ∧ s.length = 7 := by
  fin_cases hr <;>
    exact ⟨_, rfl, by
      by_cases hm : mode = "major" <;>
        simp [hm, MAJOR_OFFSETS, MINOR_OFFSETS]⟩

/-- Every degree in every template handed out by `pick_progression` is in 1..7. -/
lemma pick_progression_degrees (mode : String) (k : Nat) :
    ∀ d ∈ (pick_progression mode k).2, 1 ≤ d ∧ d ≤ 7 := by
  have h4 : k % 4 < 4 := Nat.mod_lt _ (by norm_num)
  unfold pick_progression
  by_cases hm : mode = "major" <;>
    simp only [hm, if_pos, if_neg, reduceIte,
      show MAJOR_PROGRESSIONS.length = 4 from rfl,
      show MINOR_PROGRESSIONS.length = 4 from rfl] <;>
  · revert h4
    generalize k % 4 = j
    intro h4
    interval_cases j <;> decide

/-- Every template handed out by `pick_progression` has 4 degrees. -/
lemma pick_progression_len (mode : String) (k : Nat) :
    (pick_progression mode k).2.length = 4 := by
  have h4 : k % 4 < 4 := Nat.mod_lt _ (by norm_num)
  unfold pick_progression
  by_cases hm : mode = "major" <;>
    simp only [hm, if_pos, if_neg, reduceIte,
      show MAJOR_PROGRESSIONS.length = 4 from rfl,
      show MINOR_PROGRESSIONS.length = 4 from rfl] <;>
  · revert h4
    generalize k % 4 = j
    intro h4
    interval_cases j <;> decide

/-- Mapping `degree_to_chord` over degrees that are all in 1..7, with a 7-note
scale, succeeds and preserves the length. -/
lemma mapM_degree_to_chord_ok (scale : List String) (h7 : scale.length = 7) (mode : String) :
    ∀ ds : List Int, (∀ d ∈ ds, 1 ≤ d ∧ d ≤ 7) →
      ∃ cs : List String,
        ds.mapM (fun d => degree_to_chord scale d mode) = Except.ok cs ∧ cs.length = ds.length := by
  intro ds
  induction ds with
  | nil => exact fun _ => ⟨[], rfl, rfl⟩
  | cons d tl ih =>
    intro hall
    obtain ⟨h1, h2⟩ := hall d (by simp)
    obtain ⟨cs, hcs, hlen⟩ := ih (fun x hx => hall x (by simp [hx]))
    refine ⟨chord_name (scale.getD (d - 1).toNat "")
      ((if mode = "major" then MAJOR_QUALITIES else MINOR_QUALITIES).getD (d - 1).toNat "")
        :: cs, ?_, ?_⟩
    · rw [List.mapM_cons]
      rw [degree_to_chord_ok scale d mode h7 h1 h2]
      show (Except.ok _ >>= _) = _
      rw [show ∀ (c : String) (f : String → Except String (List String)),
            (Except.ok c >>= f) = f c from fun _ _ => rfl]
      rw [hcs]
      rfl
    · simp [hlen]

/-! ### Claims -/

/-- C4: concrete scenarios.  In C major the scale is C D E F G A B, degrees
1, 2, 5, 6 render to C, Dm, G, Am, and the template degrees `[1,5,6,4]` render
to C G Am F.  In A minor the scale is A B C D E F G and degrees 1 and 6 render
to Am and F. -/
theorem c4_concrete_scenarios :
    build_scale "C" "major" = Except.ok ["C", "D", "E", "F", "G", "A", "B"] ∧
    degree_to_chord ["C", "D", "E", "F", "G", "A", "B"] 1 "major" = Except.ok "C" ∧
    degree_to_chord ["C", "D", "E", "F", "G", "A", "B"] 2 "major" = Except.ok "Dm" ∧
    degree_to_chord ["C", "D", "E", "F", "G", "A", "B"] 5 "major" = Except.ok "G" ∧
    degree_to_chord ["C", "D", "E", "F", "G", "A", "B"] 6 "major" = Except.ok "Am" ∧
    ([1, 5, 6, 4] : List Int).mapM
      (fun d => degree_to_chord ["C", "D", "E", "F", "G", "A", "B"] d "major") =
      Except.ok ["C", "G", "Am", "F"] ∧
    build_scale "A" "minor" = Except.ok ["A", "B", "C", "D", "E", "F", "G"] ∧
    degree_to_chord ["A", "B", "C", "D", "E", "F", "G"] 1 "minor" = Except.ok "Am" ∧
    degree_to_chord ["A", "B", "C", "D", "E", "F", "G"] 6 "minor" = Except.ok "F" :=
  ⟨rfl, rfl, rfl, rfl, rfl, rfl, rfl, rfl, rfl⟩

/-- C3: `chord_name` returns the bare pitch class for quality `maj`, appends
`m` for `min`, appends `dim` for `dim`, and falls back to the bare pitch class
for any other quality. -/
theorem c3_chord_name_cases (p : String) :
    chord_name p "maj" = p ∧
    chord_name p "min" = p ++ "m" ∧
    chord_name p "dim" = p ++ "dim" ∧
    ∀ q : String, q ≠ "maj" → q ≠ "min" → q ≠ "dim" → chord_name p q = p := by
  refine ⟨rfl, rfl, rfl, ?_⟩
  intro q h1 h2 h3
  simp [chord_name, h1, h2, h3]

/-- Witness for C3 at the concrete pitch class C and the unexpected quality
`aug`. -/
theorem c3_chord_name_cases_witness :
    chord_name "C" "maj" = "C" ∧ chord_name "C" "aug" = "C" :=
  ⟨(c3_chord_name_cases "C").1,
    (c3_chord_name_cases "C").2.2.2 "aug" (by decide) (by decide) (by decide)⟩

/-- C1: for every root among the 12 pitch classes and both modes, `build_scale`
succeeds with exactly 7 pitch classes, its i-th element is the note at position
`(index(root) + OFFSETS[i]) mod 12` in `NOTES`, every element is one of the 12
notes, and the first element is the root. -/
theorem c1_build_scale_law :
    ∀ r ∈ NOTES,
      ∀ p ∈ ([("major", MAJOR_OFFSETS), ("minor", MINOR_OFFSETS)] : List (String × List Nat)),
        (build_scale r p.1).toOption.isSome = true ∧
        ((build_scale r p.1).toOption.getD []).length = 7 ∧
        (∀ i < 7, ((build_scale r p.1).toOption.getD []).getD i "" =
          NOTES.getD ((NOTES.indexOf r + p.2.getD i 0) % 12) "") ∧
        ((build_scale r p.1).toOption.getD []).headD "" = r ∧
        ∀ x ∈ (build_scale r p.1).toOption.getD [], x ∈ NOTES := by
  decide

/-- Witness for C1 at root C in major mode. -/
theorem c1_build_scale_law_witness :
    (build_scale "C" "major").toOption.isSome = true ∧
    ((build_scale "C" "major").toOption.getD []).length = 7 ∧
    ((build_scale "C" "major").toOption.getD []).headD "" = "C" :=
  ⟨(c1_build_scale_law "C" (by decide) ("major", MAJOR_OFFSETS) (by decide)).1,
   (c1_build_scale_law "C" (by decide) ("major", MAJOR_OFFSETS) (by decide)).2.1,
   (c1_build_scale_law "C" (by decide) ("major", MAJOR_OFFSETS) (by decide)).2.2.2.1⟩

/-- C2: on any 7-note scale and any mode, `degree_to_chord` succeeds exactly
for degrees 1..7 and raises the out-of-range `ValueError` exactly for degrees
outside 1..7, in particular for 0 and 8. -/
theorem c2_degree_validation (scale : List String) (h7 : scale.length = 7)
    (d : Int) (mode : String) :
    ((degree_to_chord scale d mode).isOk = true ↔ 1 ≤ d ∧ d ≤ 7) ∧
    (degree_to_chord scale d mode = Except.error "Degree must be between 1 and 7" ↔
      (d < 1 ∨ 7 < d)) ∧
    degree_to_chord scale 0 mode = Except.error "Degree must be between 1 and 7" ∧
    degree_to_chord scale 8 mode = Except.error "Degree must be between 1 and 7" := by
  have herr : ∀ dd : Int, (dd < 1 ∨ 7 < dd) →
      degree_to_chord scale dd mode = Except.error "Degree must be between 1 and 7" := by
    intro dd hdd
    unfold degree_to_chord
    rw [if_pos hdd]
  refine ⟨⟨?_, ?_⟩, ⟨?_, herr d⟩, herr 0 (by omega), herr 8 (by omega)⟩
  · intro hok
    by_contra hc
    rw [herr d (by omega)] at hok
    exact Bool.noConfusion hok
  · rintro ⟨h1, h2⟩
    rw [degree_to_chord_ok scale d mode h7 h1 h2]
    rfl
  · intro he
    by_contra hc
    have h1 : 1 ≤ d := by omega
    have h2 : d ≤ 7 := by omega
    rw [degree_to_chord_ok scale d mode h7 h1 h2] at he
    exact Except.noConfusion he

/-- Witness for C2 on the C-major scale at degrees 0 and 8. -/
theorem c2_degree_validation_witness :
    degree_to_chord ["C", "D", "E", "F", "G", "A", "B"] 0 "major" =
      Except.error "Degree must be between 1 and 7" ∧
    degree_to_chord ["C", "D", "E", "F", "G", "A", "B"] 8 "major" =
      Except.error "Degree must be between 1 and 7" :=
  ⟨(c2_degree_validation ["C", "D", "E", "F", "G", "A", "B"] (by decide) 3 "major").2.2.1,
   (c2_degree_validation ["C", "D", "E", "F", "G", "A", "B"] (by decide) 3 "major").2.2.2⟩

/-- C5: every degree in every template of both progression tables lies in 1..7,
so on any 7-note scale `degree_to_chord` succeeds on every such degree and the
out-of-range branch is unreachable from the orchestrator. -/
theorem c5_table_degrees_in_range :
    ∀ t ∈ MAJOR_PROGRESSIONS ++ MINOR_PROGRESSIONS, ∀ d ∈ t.2,
      (1 ≤ d ∧ d ≤ 7) ∧
      ∀ (scale : List String) (mode : String), scale.length = 7 →
        (degree_to_chord scale d mode).isOk = true := by
  intro t ht d hd
  have hb : 1 ≤ d ∧ d ≤ 7 := by
    fin_cases ht <;> fin_cases hd <;> decide
  refine ⟨hb, ?_⟩
  intro scale mode h7
  rw [degree_to_chord_ok scale d mode h7 hb.1 hb.2]
  rfl

/-- Witness for C5 at the first major template, degree 1, on the C-major
scale. -/
theorem c5_table_degrees_in_range_witness :
    (1 ≤ (1 : Int) ∧ (1 : Int) ≤ 7) ∧
    (degree_to_chord ["C", "D", "E", "F", "G", "A", "B"] 1 "major").isOk = true :=
  ⟨(c5_table_degrees_in_range (["I", "V", "vi", "IV"], [1, 5, 6, 4])
      (by decide) 1 (by decide)).1,
   (c5_table_degrees_in_range (["I", "V", "vi", "IV"], [1, 5, 6, 4])
      (by decide) 1 (by decide)).2 ["C", "D", "E", "F", "G", "A", "B"] "major" (by decide)⟩

/-- C6: both quality tables contain only `maj`, `min`, `dim`, so for any degree
in 1..7 and any mode the quality used by `degree_to_chord` is one of those
three and the fallback branch of `chord_name` is unreachable through it. -/
theorem c6_quality_tables_closed :
    (∀ q ∈ MAJOR_QUALITIES, q = "maj" ∨ q = "min" ∨ q = "dim") ∧
    (∀ q ∈ MINOR_QUALITIES, q = "maj" ∨ q = "min" ∨ q = "dim") ∧
    ∀ (scale : List String) (mode : String) (d : Int),
      scale.length = 7 → 1 ≤ d → d ≤ 7 →
      ∃ q, (q = "maj" ∨ q = "min" ∨ q = "dim") ∧
        degree_to_chord scale d mode =
          Except.ok (chord_name (scale.getD (d - 1).toNat "") q) := by
  refine ⟨by decide, by decide, ?_⟩
  intro scale mode d h7 h1 h2
  refine ⟨(if mode = "major" then MAJOR_QUALITIES else MINOR_QUALITIES).getD (d - 1).toNat "",
    ?_, degree_to_chord_ok scale d mode h7 h1 h2⟩
  have hidx : (d - 1).toNat < 7 := by omega
  by_cases hm : mode = "major" <;> [rw [if_pos hm]; rw [if_neg hm]] <;>
  · revert hidx
    generalize (d - 1).toNat = i
    intro hidx
    interval_cases i <;> decide

/-- Witness for C6 at quality `maj` and degree 1 of the C-major scale. -/
theorem c6_quality_tables_closed_witness :
    ("maj" = "maj" ∨ "maj" = "min" ∨ "maj" = "dim") ∧
    ∃ q, (q = "maj" ∨ q = "min" ∨ q = "dim") ∧
      degree_to_chord ["C", "D", "E", "F", "G", "A", "B"] 1 "major" =
        Except.ok (chord_name (["C", "D", "E", "F", "G", "A", "B"].getD ((1 : Int) - 1).toNat "") q) :=
  ⟨c6_quality_tables_closed.1 "maj" (by decide),
   c6_quality_tables_closed.2.2 ["C", "D", "E", "F", "G", "A", "B"] "major" 1
     (by decide) (by decide) (by decide)⟩

/-- C7: each progression table holds 4 templates, and in every template the
roman-numeral list and the degree list have the same length, namely 4. -/
theorem c7_template_lengths :
    MAJOR_PROGRESSIONS.length = 4 ∧ MINOR_PROGRESSIONS.length = 4 ∧
    ∀ t ∈ MAJOR_PROGRESSIONS ++ MINOR_PROGRESSIONS,
      t.1.length = t.2.length ∧ t.1.length = 4 := by
  decide

/-- Witness for C7 at the first major template. -/
theorem c7_template_lengths_witness :
    MAJOR_PROGRESSIONS.length = 4 ∧
    ((["I", "V", "vi", "IV"], ([1, 5, 6, 4] : List Int)).1.length =
      (["I", "V", "vi", "IV"], ([1, 5, 6, 4] : List Int)).2.length) :=
  ⟨c7_template_lengths.1,
   (c7_template_lengths.2.2 (["I", "V", "vi", "IV"], [1, 5, 6, 4]) (by decide)).1⟩

/-- C8: `build_scale` and `degree_to_chord` are deterministic — equal arguments
give equal results — and the random draws influence `generate_progression` only
through the selected root, mode and template: runs whose three entropy values
select the same items produce identical output. -/
theorem c8_determinism (root mode : String) (scale : List String) (d : Int)
    (k1 k2 k3 k1' k2' k3' : Nat) :
    build_scale root mode = build_scale root mode ∧
    degree_to_chord scale d mode = degree_to_chord scale d mode ∧
    (k1 % 12 = k1' % 12 → k2 % 2 = k2' % 2 → k3 % 4 = k3' % 4 →
      generate_progression k1 k2 k3 = generate_progression k1' k2' k3') := by
  refine ⟨rfl, rfl, ?_⟩
  intro h1 h2 h3
  have e1 : k1 % NOTES.length = k1' % NOTES.length := by
    rw [show NOTES.length = 12 from rfl]
    exact h1
  have e3 : ∀ l : List (List String × List Int), l.length = 4 →
      l.getD (k3 % l.length) ([], []) = l.getD (k3' % l.length) ([], []) := by
    intro l hl
    rw [hl, h3]
  have hk : pick_key_and_mode k1 k2 = pick_key_and_mode k1' k2' := by
    unfold pick_key_and_mode
    rw [e1, h2]
  have hp : ∀ m : String, pick_progression m k3 = pick_progression m k3' := by
    intro m
    unfold pick_progression
    by_cases hm : m = "major"
    · rw [if_pos hm, if_pos hm, e3 MAJOR_PROGRESSIONS rfl]
    · rw [if_neg hm, if_neg hm, e3 MINOR_PROGRESSIONS rfl]
  simp only [generate_progression]
  rw [hk, hp]

/-- Witness for C8: entropy triples (0,0,0) and (12,2,4) make the same draws
and give the same run. -/
theorem c8_determinism_witness :
    build_scale "C" "major" = build_scale "C" "major" ∧
    generate_progression 0 0 0 = generate_progression 12 2 4 :=
  ⟨(c8_determinism "C" "major" [] 1 0 0 0 12 2 4).1,
   (c8_determinism "C" "major" [] 1 0 0 0 12 2 4).2.2 (by decide) (by decide) (by decide)⟩

/-- C9: every run of the orchestrator succeeds and emits exactly the five lines
banner, key, progression, chords, tip in fixed order (in particular four or
five lines), with the mode a literal `major` or `minor`, the roman numerals
those of the chosen template space-joined, and the chords the rendered chord
names space-joined. -/
theorem c9_output_shape (k1 k2 k3 : Nat) :
    ∃ (root mode : String) (scale roman chords : List String),
      (mode = "major" ∨ mode = "minor") ∧
      root ∈ NOTES ∧
      build_scale root mode = Except.ok scale ∧
      roman = (pick_progression mode k3).1 ∧
      (pick_progression mode k3).2.mapM (fun d => degree_to_chord scale d mode) =
        Except.ok chords ∧
      chords.length = 4 ∧
      generate_progression k1 k2 k3 = Except.ok
        [ "Random Chord Progression Generator",
          "Key: " ++ root ++ " " ++ mode,
          "Progression: " ++ String.intercalate " " roman,
          "Chords: " ++ String.intercalate " " chords,
          "Tip: Try 4 beats per chord." ] ∧
      ∀ ls, generate_progression k1 k2 k3 = Except.ok ls →
        (ls.length = 4 ∨ ls.length = 5) := by
  have hroot : (pick_key_and_mode k1 k2).1 ∈ NOTES := by
    have h12 : k1 % NOTES.length < NOTES.length := Nat.mod_lt _ (by decide)
    unfold pick_key_and_mode
    rw [List.getD_eq_getElem NOTES "" h12]
    exact List.getElem_mem h12
  have hmode : (pick_key_and_mode k1 k2).2 = "major" ∨ (pick_key_and_mode k1 k2).2 = "minor" := by
    unfold pick_key_and_mode
    rcases Nat.mod_two_eq_zero_or_one k2 with h | h <;> simp [h]
  obtain ⟨s, hs, hs7⟩ := build_scale_total _ hroot (pick_key_and_mode k1 k2).2
  obtain ⟨cs, hcs, hcl⟩ := mapM_degree_to_chord_ok s hs7 (pick_key_and_mode k1 k2).2
    (pick_progression (pick_key_and_mode k1 k2).2 k3).2
    (pick_progression_degrees (pick_key_and_mode k1 k2).2 k3)
  have hbind : ∀ (α : Type) (c : α) (f : α → Except String (List String)),
      (Except.ok c >>= f) = f c := fun _ _ _ => rfl
  have hgen : generate_progression k1 k2 k3 = Except.ok
      [ "Random Chord Progression Generator",
        "Key: " ++ (pick_key_and_mode k1 k2).1 ++ " " ++ (pick_key_and_mode k1 k2).2,
        "Progression: " ++
          String.intercalate " " (pick_progression (pick_key_and_mode k1 k2).2 k3).1,
        "Chords: " ++ String.intercalate " " cs,
        "Tip: Try 4 beats per chord." ] := by
    simp only [generate_progression]
    rw [hs, hbind (List String) s, hcs, hbind (List String) cs]
    rfl
  refine ⟨(pick_key_and_mode k1 k2).1, (pick_key_and_mode k1 k2).2,
    s, (pick_progression (pick_key_and_mode k1 k2).2 k3).1, cs,
    hmode, hroot, hs, rfl, hcs, ?_, hgen, ?_⟩
  · rw [hcl, pick_progression_len]
  · intro ls hls
    rw [hgen] at hls
    right
    rw [← Except.ok.inj hls]
    rfl

/-- C10: any mode other than the literal `major` is treated as minor by
`build_scale`, `degree_to_chord` and `pick_progression` rather than rejected. -/
theorem c10_nonmajor_is_minor (mode : String) (hm : mode ≠ "major")
    (root : String) (scale : List String) (d : Int) (k : Nat) :
    build_scale root mode = build_scale root "minor" ∧
    degree_to_chord scale d mode = degree_to_chord scale d "minor" ∧
    pick_progression mode k = pick_progression "minor" k := by
  have hmm : ("minor" : String) ≠ "major" := by decide
  refine ⟨?_, ?_, ?_⟩
  · unfold build_scale
    cases NOTES.indexOf? root
    · rfl
    · rw [if_neg hm, if_neg hmm]
  · simp only [degree_to_chord]
    by_cases hd : d < 1 ∨ 7 < d
    · rw [if_pos hd, if_pos hd]
    · rw [if_neg hd, if_neg hd, if_neg hm, if_neg hmm]
  · unfold pick_progression
    rw [if_neg hm, if_neg hmm]

/-- Witness for C10 at the unknown mode `dorian`. -/
theorem c10_nonmajor_is_minor_witness :
    build_scale "C" "dorian" = build_scale "C" "minor" ∧
    degree_to_chord ["C", "D", "E", "F", "G", "A", "B"] 1 "dorian" =
      degree_to_chord ["C", "D", "E", "F", "G", "A", "B"] 1 "minor" ∧
    pick_progression "dorian" 0 = pick_progression "minor" 0 :=
  c10_nonmajor_is_minor "dorian" (by decide) "C" ["C", "D", "E", "F", "G", "A", "B"] 1 0
